import Mathlib

/-!
Verification of the vetiver-python core against its specification.

The Python source under `vetiver/` is shallowly embedded: pure helper
functions become Lean functions, the in-place mutation of the model
object in `vetiver_pin_write` becomes explicit state passing, the single
`board.pin_write(...)` call becomes a recorded write event, and the
raised exception becomes an `Except` error value.
-/

namespace Vetiver

/-- A prototype schema, kept abstract as the ordered list of its field
names (the pydantic class declares fields in order). -/
abbrev Proto := List String

/-- The value of `board.fs.protocol`: fsspec filesystems expose either a
scalar string tag, a list of tags, or a tuple of tags.  Python equality
distinguishes the three (a string never equals a list or a tuple, and a
list never equals a tuple), so the embedding keeps them apart. -/
inductive Protocol where
  | str (tag : String)
  | list (tags : List String)
  | tup (tags : List String)
deriving DecidableEq, Repr

/-- Metadata record carried by a model.  Modelled from the spec: the
defining file `meta.py` (class `VetiverMeta`) is not under `src/`; the
spec describes the record as user mapping, required-package list,
store-assigned version, source url, and runtime version, which is also
the shape projected by the `/metadata` route and its test. -/
structure VetiverMeta where
  user : List (String × String)
  version : Option String
  url : Option String
  required_pkgs : List String
  python_version : Option (List Nat)
deriving DecidableEq, Repr

/-- Modelled from the spec: `VetiverMeta.from_dict` lives in the absent
`meta.py`; per the spec an untyped mapping is wrapped into a typed
record using the mapping as `user` data and empty defaults for the
rest. -/
def VetiverMeta.from_dict (d : List (String × String)) : VetiverMeta :=
  { user := d, version := none, url := none, required_pkgs := [],
    python_version := none }

/-- `model.metadata` is either a plain Python dict (legacy shape) or an
already-typed `VetiverMeta`. -/
inductive MetaOrDict where
  | dict (d : List (String × String))
  | meta (m : VetiverMeta)
deriving DecidableEq, Repr

/-- Read the typed record out of a migrated `metadata` field; after the
legacy migration the `dict` arm is unreachable and is mapped through
`from_dict` for totality. -/
def MetaOrDict.get : MetaOrDict → VetiverMeta
  | .meta m => m
  | .dict d => VetiverMeta.from_dict d

/-- The mutable state of a `VetiverModel` object as `vetiver_pin_write`
sees it: the wrapped model object (opaque, a string here), its name and
description, the legacy `ptype` attribute (`some v` iff the attribute is
present), the current `prototype` attribute, and the metadata field. -/
structure VetiverModelState where
  model : String
  model_name : String
  description : String
  ptype : Option Proto
  prototype : Option Proto
  metadata : MetaOrDict
deriving DecidableEq, Repr

/-- The legacy-shape migration performed by `vetiver_pin_write`
(pin_read_write.py lines 56-62): if the old `ptype` attribute is
present, copy it into `prototype` and delete it; if `metadata` is a
plain dict, wrap it with `VetiverMeta.from_dict`. -/
def from_legacy (m : VetiverModelState) : VetiverModelState :=
  let m1 :=
    match m.ptype with
    | some p => { m with prototype := some p, ptype := none }
    | none => m
  match m1.metadata with
  | .dict d => { m1 with metadata := .meta (VetiverMeta.from_dict d) }
  | .meta _ => m1

/-- A pin board: its declared pickle capability and the access-protocol
tag of its filesystem. -/
structure Board where
  allow_pickle_read : Bool
  protocol : Protocol
deriving DecidableEq, Repr

/-- Error raised by `vetiver_pin_write` when the board refuses pickled
artifacts; the source raises `NotImplementedError`, which the spec's
taxonomy names `CapabilityError`. -/
inductive PinError where
  | capabilityError
deriving DecidableEq, Repr

/-- One `board.pin_write(...)` call as issued by `vetiver_pin_write`:
the stored object, pin name, codec type tag, description, the pieces of
the metadata dict passed along, and the versioned flag. -/
structure PinWriteCall where
  obj : String
  name : String
  type : String
  description : String
  meta_user : List (String × String)
  meta_required_pkgs : List String
  meta_prototype : Option Proto
  meta_python_version : Option (List Nat)
  versioned : Bool
deriving DecidableEq, Repr

/-- `get_board_pkgs` (pin_read_write.py lines 120-150), with the chain
of Python equality tests kept exactly: the `s3` arm compares against the
list `["s3", "s3a"]` and the `gcs` arm against the tuple `("gcs", "gs")`.
The second component records whether the fall-through warning was
emitted (a warning, not an error: control flow continues). -/
def get_board_pkgs (prot : Protocol) : List String × Bool :=
  if prot = .str "rsc" then (["rsconnect-python"], false)
  else if prot = .str "file" then ([], false)
  else if prot = .list ["s3", "s3a"] then (["s3fs"], false)
  else if prot = .str "abfs" then (["adlfs"], false)
  else if prot = .tup ["gcs", "gs"] then (["gcsfs"], false)
  else ([], true)

/-- The required-packages combination at pin_read_write.py line 64:
`get_board_pkgs(board) + model.metadata.required_pkgs`, a plain list
concatenation. -/
def merge_required_packages (backend_ids declared_ids : List String) :
    List String :=
  backend_ids ++ declared_ids

/-- `vetiver_pin_write` (pin_read_write.py lines 23-82): reject boards
without pickle capability before anything else, migrate the model's
legacy shape in place, combine the package lists, and issue the single
`pin_write` call.  The result carries the caller-visible model state
after the mutation and the list of writes performed on the board. -/
def vetiver_pin_write (board : Board) (model : VetiverModelState)
    (versioned : Bool := true) :
    Except PinError (VetiverModelState × List PinWriteCall) :=
  if board.allow_pickle_read = false then .error .capabilityError
  else
    let model := from_legacy model
    let meta := model.metadata.get
    let required_pkgs :=
      merge_required_packages (get_board_pkgs board.protocol).1
        meta.required_pkgs
    .ok (model,
      [{ obj := model.model
         name := model.model_name
         type := "joblib"
         description := model.description
         meta_user := meta.user
         meta_required_pkgs := required_pkgs
         meta_prototype := model.prototype
         meta_python_version := meta.python_version
         versioned := versioned }])

/-- The writes a call to `vetiver_pin_write` performed on the board:
none when it raised, the recorded calls when it returned. -/
def writesOf (r : Except PinError (VetiverModelState × List PinWriteCall)) :
    List PinWriteCall :=
  match r with
  | .error _ => []
  | .ok (_, ws) => ws

/-- A validated request instance as pydantic hands it to the route: the
field name/value pairs in the prototype class's declaration order (both
iteration over the model and `.dict()` follow that order). -/
abbrev Instance := List (String × Int)

/-- An instance conforms to the prototype schema when its fields are
exactly the schema's fields, in order — what FastAPI's validation
against `self.model.ptype` guarantees before the handler runs. -/
def validInstance (schema : Proto) (inst : Instance) : Prop :=
  inst.map Prod.fst = schema

instance (schema : Proto) (inst : Instance) :
    Decidable (validInstance schema inst) := by
  unfold validInstance; infer_instance

/-- `_prepare_data` (server.py lines 197-201): iterate the pydantic
instance, collecting the values. -/
def prepareData (pred_data : Instance) : List Int :=
  pred_data.map Prod.snd

/-- A pandas DataFrame as `_batch_data` builds it: named columns and one
row of per-column values per instance.  A cell is `none` when the dict
lacks the column, mirroring pandas filling NaN. -/
structure DataFrame where
  columns : List String
  rows : List (List (Option Int))
deriving DecidableEq, Repr

/-- `_batch_data` (server.py lines 204-210): take the column order from
the first instance's dict, then build the frame from all the dicts.
Indexing `pred_data[0]` fails on an empty list, hence the `Option`. -/
def batchData (pred_data : List Instance) : Option DataFrame :=
  match pred_data with
  | [] => none
  | first :: _ =>
    let columns := first.map Prod.fst
    some { columns := columns
           rows := pred_data.map fun line =>
             columns.map fun c => line.lookup c }

/-- The payload handed to `handler_predict`: a plain value list for a
single instance, a DataFrame for a batch. -/
inductive Served where
  | row (vals : List Int)
  | df (d : DataFrame)
deriving DecidableEq, Repr

/-- The body of the strict-mode `POST /predict/` route: one instance or
a list of instances. -/
inductive InputData where
  | single (i : Instance)
  | batch (l : List Instance)
deriving DecidableEq, Repr

/-- The JSON body answered by the prediction route. -/
structure PredResponse where
  prediction : List Int
deriving DecidableEq, Repr

/-- Call out to the model's predict capability, counting the call. -/
def callPredict (predict : Served → List Int) (s : Served) (n : Nat) :
    List Int × Nat :=
  (predict s, n + 1)

/-- The strict-mode `prediction` handler (server.py lines 92-108) over
an abstract predict capability, threading the number of predict calls
made while serving the request: branch on the request shape, build the
served payload, call predict, and wrap the outputs. `none` models the
IndexError a batch of zero instances raises inside `_batch_data`. -/
def prediction (predict : Served → List Int) (input_data : InputData)
    (n : Nat) : Option (PredResponse × Nat) :=
  match input_data with
  | .batch l =>
    match batchData l with
    | none => none
    | some d =>
      let (y, n1) := callPredict predict (.df d) n
      some ({ prediction := y }, n1)
  | .single i =>
    let served := prepareData i
    let (y, n1) := callPredict predict (.row served) n
    some ({ prediction := y }, n1)

/-- A route attached to the FastAPI app, identified by method and path. -/
structure AppRoute where
  method : String
  path : String
deriving DecidableEq, Repr

/-- The OpenAPI description `get_openapi` produces, abstracted to the
arguments the source passes plus the logo later patched in. -/
structure OpenApiSchema where
  title : String
  version : String
  description : String
  routes : List AppRoute
  logo : Option String
deriving DecidableEq, Repr

/-- FastAPI's `get_openapi` helper, kept abstract: it deterministically
assembles a description from the arguments given. -/
def get_openapi (title version description : String)
    (routes : List AppRoute) : OpenApiSchema :=
  { title := title, version := version, description := description,
    routes := routes, logo := none }

/-- The mutable FastAPI app object: its attached routes and the
`openapi_schema` cache slot (`None` until first computed). -/
structure AppState where
  routes : List AppRoute
  openapi_schema : Option OpenApiSchema
deriving DecidableEq, Repr

/-- `VetiverAPI._custom_openapi` (server.py lines 160-171): return the
cached description when the slot is set, otherwise compute it, patch in
the logo, store it, and return it.  The final component counts the
`get_openapi` computations this call performed. -/
def custom_openapi (model_name description : String) (st : AppState) :
    OpenApiSchema × AppState × Nat :=
  match st.openapi_schema with
  | some s => (s, st, 0)
  | none =>
    let s0 := get_openapi (model_name ++ " model API") "0.1.3" description
      st.routes
    let s := { s0 with logo := some "../docs/figures/logo.svg" }
    (s, { st with openapi_schema := some s }, 1)

/-- The `ping` handler (server.py lines 59-61): a constant body that
never touches the model passed to the surrounding API object. -/
def ping (_model : VetiverModelState) : Nat × List (String × String) :=
  (200, [("ping", "pong")])

/-- `VetiverAPI.vetiver_post` (server.py lines 121-153), route-table
effect: attach a POST route at `"/" + endpoint_name + "/"`.  FastAPI's
decorator appends to the route list unconditionally; nothing checks for
an existing path. -/
def vetiver_post (app : AppState) (endpoint_name : String) : AppState :=
  { app with routes :=
      app.routes ++ [{ method := "POST", path := "/" ++ endpoint_name ++ "/" }] }

/-- The strict-mode handler body that `vetiver_post` attaches: prepare
the instance, run the endpoint function over the value series, and
answer `\x7bendpoint_name: result\x7d`. -/
def custom_endpoint (endpoint_fx : List Int → List Int)
    (endpoint_name : String) (input_data : Instance) : String × List Int :=
  (endpoint_name, endpoint_fx (prepareData input_data))

/-- The JSON body answered by the `/metadata` route. -/
structure MetadataResponse where
  user : List (String × String)
  version : Option String
  url : Option String
  required_pkgs : List String
  python_version : Option (List Nat)
deriving DecidableEq, Repr

/-- Modelled from the spec: the `GET /metadata` route is absent from the
`server.py` under `src/` (only its test exists); per the spec it answers
the direct projection user, version, url, required_pkgs, python_version
of the metadata record, never the model object. -/
def metadata_route (meta : VetiverMeta) : Nat × MetadataResponse :=
  (200,
   { user := meta.user, version := meta.version, url := meta.url,
     required_pkgs := meta.required_pkgs,
     python_version := meta.python_version })

/-- Modelled from the spec: the metadata record reconstructed from a
stored pin write — the written user data, required packages and runtime
version, with `version` assigned by the store (absent here) and no
source url. -/
def metaOfWrite (w : PinWriteCall) : VetiverMeta :=
  { user := w.meta_user, version := none, url := none,
    required_pkgs := w.meta_required_pkgs,
    python_version := w.meta_python_version }

/-- Helper: the legacy migration never changes an already-typed
metadata field. -/
theorem from_legacy_metadata_meta (m : VetiverModelState) (mm : VetiverMeta)
    (h : m.metadata = .meta mm) : (from_legacy m).metadata = .meta mm := by
  obtain ⟨mo, mn, de, pt, pr, md⟩ := m
  simp only at h
  subst h
  cases pt <;> rfl

/-- Helper: the legacy migration keeps the model object, name and
description. -/
theorem from_legacy_fixed (m : VetiverModelState) :
    (from_legacy m).model = m.model ∧
    (from_legacy m).model_name = m.model_name ∧
    (from_legacy m).description = m.description := by
  obtain ⟨mo, mn, de, pt, pr, md⟩ := m
  cases pt <;> cases md <;> exact ⟨rfl, rfl, rfl⟩


/-- Helper: the write record `vetiver_pin_write` issues when the board
accepts pickles. -/
def boardWrite (board : Board) (model : VetiverModelState) (v : Bool) :
    PinWriteCall :=
  let m := from_legacy model
  let meta := m.metadata.get
  { obj := m.model
    name := m.model_name
    type := "joblib"
    description := m.description
    meta_user := meta.user
    meta_required_pkgs :=
      merge_required_packages (get_board_pkgs board.protocol).1
        meta.required_pkgs
    meta_prototype := m.prototype
    meta_python_version := meta.python_version
    versioned := v }

/-- Helper: on a pickle-capable board, `vetiver_pin_write` returns the
migrated model and issues exactly the expected write. -/
theorem vetiver_pin_write_ok (board : Board) (model : VetiverModelState)
    (v : Bool) (h : board.allow_pickle_read = true) :
    vetiver_pin_write board model v
      = .ok (from_legacy model, [boardWrite board model v]) := by
  simp [vetiver_pin_write, boardWrite, h]

/-- Test fixture: a metadata record declaring the given packages and
runtime version, with everything else empty. -/
def mkMeta (pkgs : List String) (pv : Option (List Nat) := none) :
    VetiverMeta :=
  { user := [], version := none, url := none, required_pkgs := pkgs,
    python_version := pv }

/-- Test fixture: an already-migrated model state declaring the given
packages. -/
def mkModel (pkgs : List String) (pv : Option (List Nat) := none) :
    VetiverModelState :=
  { model := "m", model_name := "my_model", description := "d",
    ptype := none, prototype := none, metadata := .meta (mkMeta pkgs pv) }

/-- Test fixture: a model in both legacy shapes at once — a `ptype`
attribute and a plain-dict metadata. -/
def legacyModel : VetiverModelState :=
  { model := "m", model_name := "my_model", description := "d",
    ptype := some ["B"], prototype := none,
    metadata := .dict [("k", "v")] }

/-- C1 counterexample: the required-packages combination in
`vetiver_pin_write` is a plain concatenation and does not deduplicate:
merging a, b with b, c keeps the duplicate b, and a concrete write to a
board whose protocol is the list s3, s3a with a model that already
declares s3fs stores s3fs twice. -/
theorem merge_required_packages_cex :
    merge_required_packages ["a", "b"] ["b", "c"] ≠ ["a", "b", "c"] ∧
    merge_required_packages ["a", "b"] ["b", "c"] = ["a", "b", "b", "c"] ∧
    (writesOf (vetiver_pin_write ⟨true, .list ["s3", "s3a"]⟩
        (mkModel ["s3fs"]) true)).map (fun w => w.meta_required_pkgs)
      = [["s3fs", "s3fs"]] := by
  refine ⟨by decide, rfl, rfl⟩

/-- C1 (amended): the required-packages list stored by
`vetiver_pin_write` is the order-stable concatenation of the
backend-inferred identifiers followed by the model-declared identifiers,
with no deduplication. -/
theorem vetiver_pin_write_required_pkgs_concat (board : Board)
    (model : VetiverModelState) (v : Bool)
    (h : board.allow_pickle_read = true) :
    (writesOf (vetiver_pin_write board model v)).map
        (fun w => w.meta_required_pkgs)
      = [(get_board_pkgs board.protocol).1
          ++ ((from_legacy model).metadata.get).required_pkgs] := by
  simp [vetiver_pin_write, h, writesOf, merge_required_packages]

/-- C1 witness: the concatenation law evaluated on a concrete file
board and model. -/
theorem vetiver_pin_write_required_pkgs_concat_witness :
    (writesOf (vetiver_pin_write ⟨true, .str "file"⟩
        (mkModel ["scikit-learn"]) true)).map
        (fun w => w.meta_required_pkgs)
      = [(get_board_pkgs (.str "file")).1
          ++ ((from_legacy (mkModel ["scikit-learn"])).metadata.get).required_pkgs] :=
  vetiver_pin_write_required_pkgs_concat ⟨true, .str "file"⟩
    (mkModel ["scikit-learn"]) true rfl

/-- C2: when the board declares it cannot read pickled artifacts,
`vetiver_pin_write` raises the capability error as its very first step
and performs zero writes on the board; the error propagates to the
caller and is never downgraded. -/
theorem vetiver_pin_write_capability_guard (board : Board)
    (model : VetiverModelState) (v : Bool)
    (h : board.allow_pickle_read = false) :
    vetiver_pin_write board model v = .error .capabilityError ∧
    writesOf (vetiver_pin_write board model v) = [] := by
  constructor <;> simp [vetiver_pin_write, h, writesOf]

/-- C2 witness: the guard evaluated on a concrete pickle-refusing
board. -/
theorem vetiver_pin_write_capability_guard_witness :
    vetiver_pin_write ⟨false, .str "file"⟩ (mkModel []) true
        = .error .capabilityError ∧
    writesOf (vetiver_pin_write ⟨false, .str "file"⟩ (mkModel []) true)
        = [] :=
  vetiver_pin_write_capability_guard ⟨false, .str "file"⟩ (mkModel [])
    true rfl

/-- C3 counterexample: the scalar protocol tags s3, s3a, gcs and gs are
not recognized by `get_board_pkgs` — the source compares them against a
list respectively a tuple, which a scalar string never equals — so each
yields the empty package list together with the unknown-protocol
warning, not the package list the claim states. -/
theorem get_board_pkgs_scalar_tags_cex :
    get_board_pkgs (.str "s3") = ([], true) ∧
    get_board_pkgs (.str "s3a") = ([], true) ∧
    get_board_pkgs (.str "gcs") = ([], true) ∧
    get_board_pkgs (.str "gs") = ([], true) := by
  refine ⟨rfl, rfl, rfl, rfl⟩

/-- C3 (amended): `get_board_pkgs` is a pure function of the protocol
value; the recognized values are the strings rsc, file and abfs, the
list value s3, s3a and the tuple value gcs, gs, each mapped to its fixed
package list without warning; every other value (the scalar strings s3,
s3a, gcs, gs included) yields the empty list with a non-fatal warning,
and the write still proceeds. -/
theorem get_board_pkgs_table (p : Protocol)
    (h : p ∉ [Protocol.str "rsc", Protocol.str "file",
      Protocol.list ["s3", "s3a"], Protocol.str "abfs",
      Protocol.tup ["gcs", "gs"]]) :
    get_board_pkgs (.str "rsc") = (["rsconnect-python"], false) ∧
    get_board_pkgs (.str "file") = ([], false) ∧
    get_board_pkgs (.list ["s3", "s3a"]) = (["s3fs"], false) ∧
    get_board_pkgs (.str "abfs") = (["adlfs"], false) ∧
    get_board_pkgs (.tup ["gcs", "gs"]) = (["gcsfs"], false) ∧
    get_board_pkgs p = ([], true) ∧
    (∀ (model : VetiverModelState) (v : Bool) (b : Bool),
      b = true →
      ∃ m w, vetiver_pin_write ⟨b, p⟩ model v = .ok (m, w)) := by
  simp only [List.mem_cons, List.mem_singleton, not_or] at h
  obtain ⟨h1, h2, h3, h4, h5⟩ := h
  refine ⟨rfl, rfl, rfl, rfl, rfl, ?_, ?_⟩
  · simp [get_board_pkgs, h1, h2, h3, h4, h5]
  · intro model v b hb
    subst hb
    exact ⟨_, _, vetiver_pin_write_ok ⟨true, p⟩ model v rfl⟩

/-- C3 witness: the table theorem evaluated at the unrecognized scalar
tag s3. -/
theorem get_board_pkgs_table_witness :
    get_board_pkgs (.str "rsc") = (["rsconnect-python"], false) ∧
    get_board_pkgs (.str "file") = ([], false) ∧
    get_board_pkgs (.list ["s3", "s3a"]) = (["s3fs"], false) ∧
    get_board_pkgs (.str "abfs") = (["adlfs"], false) ∧
    get_board_pkgs (.tup ["gcs", "gs"]) = (["gcsfs"], false) ∧
    get_board_pkgs (.str "s3") = ([], true) ∧
    (∀ (model : VetiverModelState) (v : Bool) (b : Bool),
      b = true →
      ∃ m w, vetiver_pin_write ⟨b, .str "s3"⟩ model v = .ok (m, w)) :=
  get_board_pkgs_table (.str "s3") (by decide)

/-- C5: the legacy-shape migration performed at write time is
idempotent — applying it to an already-migrated model changes
nothing. -/
theorem from_legacy_idempotent (m : VetiverModelState) :
    from_legacy (from_legacy m) = from_legacy m := by
  obtain ⟨mo, mn, de, pt, pr, md⟩ := m
  cases pt <;> cases md <;> rfl

/-- C5 witness: idempotence evaluated on a concrete doubly-legacy
model. -/
theorem from_legacy_idempotent_witness :
    from_legacy (from_legacy legacyModel) = from_legacy legacyModel :=
  from_legacy_idempotent legacyModel

/-- C10: `vetiver_pin_write` mutates the caller's model: after a
successful call the returned model state (the caller-visible object) has
the legacy ptype attribute deleted with its value moved into prototype,
and a plain-dict metadata replaced by the typed record. -/
theorem vetiver_pin_write_mutates_caller_model (board : Board)
    (model : VetiverModelState) (v : Bool) (p : Proto)
    (d : List (String × String))
    (h : board.allow_pickle_read = true) :
    ∃ model' w, vetiver_pin_write board model v = .ok (model', w) ∧
      (model.ptype = some p →
        model'.ptype = none ∧ model'.prototype = some p) ∧
      (model.metadata = .dict d →
        model'.metadata = .meta (VetiverMeta.from_dict d)) := by
  refine ⟨from_legacy model, [boardWrite board model v],
    vetiver_pin_write_ok board model v h, ?_, ?_⟩
  · intro hp
    obtain ⟨mo, mn, de, pt, pr, md⟩ := model
    simp only at hp
    subst hp
    cases md <;> exact ⟨rfl, rfl⟩
  · intro hd
    obtain ⟨mo, mn, de, pt, pr, md⟩ := model
    simp only at hd
    subst hd
    cases pt <;> rfl

/-- C10 witness: the mutation observed on a concrete model carrying
both legacy shapes. -/
theorem vetiver_pin_write_mutates_caller_model_witness :
    ∃ model' w, vetiver_pin_write ⟨true, .str "file"⟩ legacyModel true
        = .ok (model', w) ∧
      (legacyModel.ptype = some ["B"] →
        model'.ptype = none ∧ model'.prototype = some ["B"]) ∧
      (legacyModel.metadata = .dict [("k", "v")] →
        model'.metadata = .meta (VetiverMeta.from_dict [("k", "v")])) :=
  vetiver_pin_write_mutates_caller_model ⟨true, .str "file"⟩ legacyModel
    true ["B"] [("k", "v")] rfl

/-- C4: the strict-mode prediction route wraps a single instance as its
one-row value payload and assembles a validated batch into one
column-oriented payload whose column order equals the schema field
order; on both paths the predict capability is called exactly once per
request and the response carries the outputs as the prediction list. -/
theorem prediction_route_spec (predict : Served → List Int)
    (schema : Proto) (i : Instance) (l : List Instance) (n : Nat) :
    (validInstance schema i →
      prediction predict (.single i) n
        = some ({ prediction := predict (.row (prepareData i)) }, n + 1)) ∧
    (l ≠ [] → (∀ inst ∈ l, validInstance schema inst) →
      ∃ d, batchData l = some d ∧ d.columns = schema ∧
        prediction predict (.batch l) n
          = some ({ prediction := predict (.df d) }, n + 1)) := by
  constructor
  · intro _
    rfl
  · intro hne hval
    cases l with
    | nil => exact absurd rfl hne
    | cons first rest =>
      refine ⟨_, rfl, ?_, rfl⟩
      exact hval first (List.mem_cons_self first rest)

/-- C4 witness: the route evaluated at the spec's concrete schema, a
single instance and a two-instance batch, with a predict stub counting
as one output. -/
theorem prediction_route_spec_witness :
    prediction (fun _ => [1]) (.single [("B", 50), ("C", 50), ("D", 50)]) 0
        = some ({ prediction := [1] }, 1) ∧
    ∃ d, batchData [[("B", 50), ("C", 50), ("D", 50)],
          [("B", 43), ("C", 43), ("D", 43)]] = some d ∧
      d.columns = ["B", "C", "D"] ∧
      prediction (fun _ => [1])
          (.batch [[("B", 50), ("C", 50), ("D", 50)],
            [("B", 43), ("C", 43), ("D", 43)]]) 0
        = some ({ prediction := [1] }, 1) := by
  have h := prediction_route_spec (fun _ => [1]) ["B", "C", "D"]
    [("B", 50), ("C", 50), ("D", 50)]
    [[("B", 50), ("C", 50), ("D", 50)], [("B", 43), ("C", 43), ("D", 43)]] 0
  exact ⟨h.1 (by decide), h.2 (by decide) (by decide)⟩

/-- C6: the OpenAPI description is computed lazily on first call and
cached on the app object: a call finding the cache set returns the
cached value with the state unchanged and performs zero computations,
and after the first computing call every later call returns that same
value with no recomputation. -/
theorem custom_openapi_cached (name desc : String) (st : AppState) :
    (∀ s, st.openapi_schema = some s →
      custom_openapi name desc st = (s, st, 0)) ∧
    (st.openapi_schema = none →
      ∃ s1 st1, custom_openapi name desc st = (s1, st1, 1) ∧
        st1.openapi_schema = some s1 ∧
        custom_openapi name desc st1 = (s1, st1, 0)) := by
  constructor
  · intro s hs
    simp [custom_openapi, hs]
  · intro h
    obtain ⟨rs, os⟩ := st
    simp only at h
    subst h
    exact ⟨_, _, rfl, rfl, rfl⟩

/-- C6 witness: the caching behaviour evaluated on a concrete app state
with an empty cache slot. -/
theorem custom_openapi_cached_witness :
    (({ routes := [], openapi_schema := none } : AppState).openapi_schema
        = none →
      ∃ s1 st1,
        custom_openapi "my_model" "d"
            { routes := [], openapi_schema := none } = (s1, st1, 1) ∧
        st1.openapi_schema = some s1 ∧
        custom_openapi "my_model" "d" st1 = (s1, st1, 0)) ∧
    (∃ s1 st1,
      custom_openapi "my_model" "d"
          { routes := [], openapi_schema := none } = (s1, st1, 1) ∧
      st1.openapi_schema = some s1 ∧
      custom_openapi "my_model" "d" st1 = (s1, st1, 0)) :=
  ⟨(custom_openapi_cached "my_model" "d"
      { routes := [], openapi_schema := none }).2,
   (custom_openapi_cached "my_model" "d"
      { routes := [], openapi_schema := none }).2 rfl⟩

/-- C7: the metadata route answers the direct projection of the
metadata record — user, version, url, required packages, runtime
version, never the model object — and after writing a model that
declares scikit-learn with no explicit user metadata to a file board,
the record read back from that write is served as empty user data, null
version and url, the scikit-learn package list, and the recorded runtime
version. -/
theorem metadata_route_projection (model : VetiverModelState)
    (pv : List Nat) (v : Bool)
    (h : model.metadata = .meta (mkMeta ["scikit-learn"] (some pv))) :
    (∀ meta : VetiverMeta, metadata_route meta
        = (200,
           { user := meta.user, version := meta.version, url := meta.url,
             required_pkgs := meta.required_pkgs,
             python_version := meta.python_version })) ∧
    ∃ model', vetiver_pin_write ⟨true, .str "file"⟩ model v
        = .ok (model', [boardWrite ⟨true, .str "file"⟩ model v]) ∧
      metadata_route (metaOfWrite (boardWrite ⟨true, .str "file"⟩ model v))
        = (200,
           { user := [], version := none, url := none,
             required_pkgs := ["scikit-learn"],
             python_version := some pv }) := by
  refine ⟨fun meta => rfl, from_legacy model,
    vetiver_pin_write_ok ⟨true, .str "file"⟩ model v rfl, ?_⟩
  have hm := from_legacy_metadata_meta model _ h
  simp [boardWrite, metaOfWrite, metadata_route, hm, MetaOrDict.get,
    mkMeta, merge_required_packages, get_board_pkgs]

/-- C7 witness: the metadata scenario evaluated on a concrete model
declaring scikit-learn and a concrete runtime version. -/
theorem metadata_route_projection_witness :
    (∀ meta : VetiverMeta, metadata_route meta
        = (200,
           { user := meta.user, version := meta.version, url := meta.url,
             required_pkgs := meta.required_pkgs,
             python_version := meta.python_version })) ∧
    ∃ model', vetiver_pin_write ⟨true, .str "file"⟩
          (mkModel ["scikit-learn"] (some [3, 10, 0])) true
        = .ok (model',
            [boardWrite ⟨true, .str "file"⟩
              (mkModel ["scikit-learn"] (some [3, 10, 0])) true]) ∧
      metadata_route (metaOfWrite (boardWrite ⟨true, .str "file"⟩
            (mkModel ["scikit-learn"] (some [3, 10, 0])) true))
        = (200,
           { user := [], version := none, url := none,
             required_pkgs := ["scikit-learn"],
             python_version := some [3, 10, 0] }) :=
  metadata_route_projection (mkModel ["scikit-learn"] (some [3, 10, 0]))
    [3, 10, 0] true rfl

/-- C8 counterexample: registering the same endpoint name twice is not
rejected — the second `vetiver_post` call succeeds and simply appends a
second route at the same path, so the app ends up with the duplicate
route instead of a configuration error. -/
theorem vetiver_post_duplicate_not_rejected_cex :
    (vetiver_post (vetiver_post { routes := [], openapi_schema := none }
        "custom_endpoint") "custom_endpoint").routes
      = [{ method := "POST", path := "/custom_endpoint/" },
         { method := "POST", path := "/custom_endpoint/" }] := rfl

/-- C8 (amended): `vetiver_post` attaches a POST route at the path
derived from the given name whose handler answers the pair of the name
and the endpoint function's result on the prepared payload; a
registration under a name already in use is not rejected at attach time
— the route list simply grows by the same path again. -/
theorem vetiver_post_spec (app : AppState) (name : String)
    (fx : List Int → List Int) (input : Instance) :
    (vetiver_post app name).routes
      = app.routes ++ [{ method := "POST", path := "/" ++ name ++ "/" }] ∧
    custom_endpoint fx name input = (name, fx (prepareData input)) :=
  ⟨rfl, rfl⟩

/-- C9: the ping handler answers the constant pong body with success
status for every model state — it never consults the model. -/
theorem ping_always_pong :
    ∀ m : VetiverModelState, ping m = (200, [("ping", "pong")]) ∧
      ∀ m' : VetiverModelState, ping m = ping m' :=
  fun _ => ⟨rfl, fun _ => rfl⟩

end Vetiver
